import Mathlib

/-!
Shallow embedding of the Workload Location Index of costinm/mk8s:
the `K8SData` event-handler aggregator in `src/ip/ipdata.go` and the
`K8SIPWatcher.WaitForInit` wrapper in the informer wrapper file.

Modelling decisions:
* `sync.Map` is embedded as an association list with `Store` / `Delete` /
  `Load` operations; each operation is atomic in the Go code, which is
  reflected in the atomic-operation decomposition used for the concurrency
  claim.
* `atomic.Int32` counters are embedded as `Int` with explicit wrap-around
  at 32 bits (`int32wrap`), matching two's-complement `Add`.
* The dynamic `interface\x7b\x7d` dispatch (`switch obj.(type)`) is embedded as
  the inductive `Obj`; `Obj.other` stands for any object shape with no case
  in the switch (including `DeletedFinalStateUnknown`).
* Go's unchecked type assertion `old.(*core_v1.Pod)` in `OnUpdate` panics
  when `old` is not a pod pointer; `OnUpdate` therefore returns
  `Option K8SData`, `none` meaning the call panics.
* Logging calls (`slog.Info`, `cmp.Diff`) have no effect on the index state
  and are omitted.
-/

/-- Pod status fields used by the code (`Status.PodIP`, `Status.HostIP`). -/
structure PodStatus where
  podIP : String
  hostIP : String
  deriving DecidableEq, Repr

/-- A `core_v1.Pod`: name, namespace, a spec snapshot (stands for the full
`Spec` structure, only compared/logged by the code) and the status. -/
structure Pod where
  name : String
  ns : String
  spec : String
  status : PodStatus
  deriving DecidableEq, Repr

/-- A `discovery_v1.EndpointSlice`: the code only reads `len(v.Endpoints)`,
so each endpoint is represented by its address list. -/
structure EndpointSlice where
  endpoints : List (List String)
  deriving DecidableEq, Repr

/-- A `core_v1.Node`: only logged by the handlers. -/
structure NodeRec where
  name : String
  addresses : List String
  deriving DecidableEq, Repr

/-- The dynamic object passed through `interface\x7b\x7d`:
the shapes the `switch` statements distinguish. -/
inductive Obj where
  | pod (p : Pod)
  | node (n : NodeRec)
  | slice (s : EndpointSlice)
  | gateway
  | other
  deriving DecidableEq, Repr

/-- Wrap an integer into the `int32` range, as Go two's-complement
arithmetic does. -/
def int32wrap (n : Int) : Int :=
  (n + 2 ^ 31) % 2 ^ 32 - 2 ^ 31

/-- `atomic.Int32.Add`: two's-complement addition. -/
def int32Add (a b : Int) : Int :=
  int32wrap (a + b)

/-- `sync.Map.Store`: replace the value at the key in place, or append. -/
def mapStore (m : List (String × Pod)) (k : String) (v : Pod) :
    List (String × Pod) :=
  match m with
  | [] => [(k, v)]
  | (k1, v1) :: rest =>
      if k1 = k then (k, v) :: rest else (k1, v1) :: mapStore rest k v

/-- `sync.Map.Delete`: remove every binding of the key. -/
def mapDelete (m : List (String × Pod)) (k : String) : List (String × Pod) :=
  m.filter (fun kv => kv.1 ≠ k)

/-- `sync.Map.Load`: the value at the key, if any. -/
def mapLoad (m : List (String × Pod)) (k : String) : Option Pod :=
  (m.find? (fun kv => kv.1 = k)).map Prod.snd

/-- `K8SData` (src/ip/ipdata.go): the two `sync.Map` indexes, the `synced`
flag and the three `atomic.Int32` counters.  The `MDB` field is never
touched by the handlers and is omitted. -/
structure K8SData where
  ipToSrc : List (String × Pod)
  podInfo : List (String × Pod)
  synced : Bool
  pods : Int
  slices : Int
  sliceIPs : Int
  deriving DecidableEq, Repr

/-- The Go zero value `&K8SData\x7b\x7d`. -/
def K8SData.init : K8SData :=
  { ipToSrc := [], podInfo := [], synced := false,
    pods := 0, slices := 0, sliceIPs := 0 }

/-- `K8SData.OnAdd` (src/ip/ipdata.go lines 86-118).  The `Gateway` and
`Node` cases only log; shapes without a case fall through the switch. -/
def K8SData.OnAdd (k : K8SData) (obj : Obj) (isInInitialList : Bool) :
    K8SData :=
  match obj with
  | .slice v =>
      { k with slices := int32Add k.slices 1,
               sliceIPs := int32Add k.sliceIPs (int32wrap v.endpoints.length) }
  | .gateway => k
  | .pod v =>
      let k1 := { k with podInfo := mapStore k.podInfo (v.name ++ "." ++ v.ns) v }
      let k2 := { k1 with pods := int32Add k1.pods 1 }
      let ip := v.status.podIP
      if ip ≠ "" then { k2 with ipToSrc := mapStore k2.ipToSrc ip v } else k2
  | .node _ => k
  | .other => k

/-- `K8SData.OnUpdate` (src/ip/ipdata.go lines 120-136).  When the new
object is a pod, the code asserts `old.(*core_v1.Pod)` without a comma-ok
form: a non-pod `old` makes the call panic (`none`).  The store into
`IPToSrc` is unconditional — no empty-address guard. -/
def K8SData.OnUpdate (k : K8SData) (old newObj : Obj) : Option K8SData :=
  match newObj with
  | .pod v =>
      match old with
      | .pod _ =>
          some { k with ipToSrc := mapStore k.ipToSrc v.status.podIP v }
      | _ => none
  | .node _ => some k
  | _ => some k

/-- `K8SData.OnDelete` (src/ip/ipdata.go lines 140-155).  Only the pod and
node shapes have cases; the node case only logs.  `PodInfo` is never
touched. -/
def K8SData.OnDelete (k : K8SData) (obj : Obj) : K8SData :=
  match obj with
  | .pod v =>
      let k1 := { k with pods := int32Add k.pods (-1) }
      let ip := v.status.podIP
      if ip ≠ "" then { k1 with ipToSrc := mapDelete k1.ipToSrc ip } else k1
  | _ => k

/-- Lookup-by-name: `PodInfo.Load` under the composite key the code builds
with `v.Name+"."+v.Namespace`. -/
def lookupByName (k : K8SData) (name ns : String) : Option Pod :=
  mapLoad k.podInfo (name ++ "." ++ ns)

/-- Lookup-by-address: `IPToSrc.Load`. -/
def lookupByAddr (k : K8SData) (addr : String) : Option Pod :=
  mapLoad k.ipToSrc addr

/-- Modelled from the spec and the client-go documentation:
`cache.WaitForCacheSync(stopCh, preds...)` (an external dependency, not
repository code) returns `true` exactly when every given readiness
predicate becomes satisfied before the stop channel fires.  Each `Bool`
input records whether that predicate was satisfied before cancellation. -/
def WaitForCacheSync (predsSatisfiedBeforeStop : List Bool) : Bool :=
  predsSatisfiedBeforeStop.all id

/-- `K8SIPWatcher.WaitForInit` (informer wrapper, src/unnamed/part_000
lines 41-52): waits on the pod and node informers — the two kinds
`NewK8SWatcher` registers handlers for.  Returns the (possibly updated)
state together with `some errMsg` on failure, `none` on success; the Go
method mutates the receiver only on success. -/
def K8SData.WaitForInit (k : K8SData) (podSynced nodeSynced : Bool) :
    K8SData × Option String :=
  if !(WaitForCacheSync [podSynced, nodeSynced]) then
    (k, some "failed to sync")
  else
    ({ k with synced := true }, none)

example : K8SData.init.OnAdd (.pod ⟨"a", "default", "s", ⟨"10.0.0.1", "h"⟩⟩) false
    = { ipToSrc := [("10.0.0.1", ⟨"a", "default", "s", ⟨"10.0.0.1", "h"⟩⟩)],
        podInfo := [("a.default", ⟨"a", "default", "s", ⟨"10.0.0.1", "h"⟩⟩)],
        synced := false, pods := 1, slices := 0, sliceIPs := 0 } := by decide

/-! ### Helper lemmas about the embedded map and counter operations -/

theorem mapLoad_mapStore_self (m : List (String × Pod)) (k : String) (v : Pod) :
    mapLoad (mapStore m k v) k = some v := by
  induction m with
  | nil => simp [mapStore, mapLoad, List.find?]
  | cons hd tl ih =>
      obtain ⟨k1, v1⟩ := hd
      by_cases h : k1 = k
      · simp [mapStore, h, mapLoad, List.find?]
      · simpa [mapStore, h, mapLoad, List.find?] using ih

theorem mapLoad_mapStore_ne (m : List (String × Pod)) (k q : String) (v : Pod)
    (h : q ≠ k) : mapLoad (mapStore m k v) q = mapLoad m q := by
  induction m with
  | nil => simp [mapStore, mapLoad, List.find?, Ne.symm h]
  | cons hd tl ih =>
      obtain ⟨k1, v1⟩ := hd
      by_cases hk : k1 = k
      · subst hk
        simp [mapStore, mapLoad, List.find?, Ne.symm h]
      · by_cases hq : k1 = q
        · simp [mapStore, hk, mapLoad, List.find?, hq, h]
        · simpa [mapStore, hk, mapLoad, List.find?, hq] using ih

theorem mapLoad_mapDelete_self (m : List (String × Pod)) (k : String) :
    mapLoad (mapDelete m k) k = none := by
  induction m with
  | nil => simp [mapDelete, mapLoad, List.find?]
  | cons hd tl ih =>
      obtain ⟨k1, v1⟩ := hd
      by_cases h : k1 = k
      · simpa [mapDelete, h, mapLoad] using ih
      · simpa [mapDelete, h, mapLoad, List.find?] using ih

theorem mapStore_idem (m : List (String × Pod)) (k : String) (v : Pod) :
    mapStore (mapStore m k v) k v = mapStore m k v := by
  induction m with
  | nil => simp [mapStore]
  | cons hd tl ih =>
      obtain ⟨k1, v1⟩ := hd
      by_cases h : k1 = k
      · simp [mapStore, h]
      · simp [mapStore, h, ih]

theorem int32wrap_eq_self (n : Int) (h1 : -2 ^ 31 ≤ n) (h2 : n < 2 ^ 31) :
    int32wrap n = n := by
  unfold int32wrap
  omega

theorem int32Add_one (n : Int) (h1 : -2 ^ 31 ≤ n) (h2 : n + 1 < 2 ^ 31) :
    int32Add n 1 = n + 1 := by
  unfold int32Add
  exact int32wrap_eq_self _ (by omega) (by omega)

theorem int32Add_neg_one (n : Int) (h1 : -2 ^ 31 < n) (h2 : n < 2 ^ 31) :
    int32Add n (-1) = n - 1 := by
  unfold int32Add
  have := int32wrap_eq_self (n + -1) (by omega) (by omega)
  omega

/-! ### Concrete fixtures used by counterexamples and witnesses -/

/-- Pod "a" in namespace "default" with address 10.0.0.1. -/
def podA : Pod := ⟨"a", "default", "s1", ⟨"10.0.0.1", "h1"⟩⟩

/-- Same composite name as `podA`, different spec and address. -/
def podA2 : Pod := ⟨"a", "default", "s2", ⟨"10.0.0.2", "h1"⟩⟩

/-- Pod "b" in namespace "default" sharing the address of `podA`. -/
def podB : Pod := ⟨"b", "default", "s1", ⟨"10.0.0.1", "h2"⟩⟩

/-- A pod with no address assigned yet. -/
def podE : Pod := ⟨"e", "default", "s1", ⟨"", "h1"⟩⟩

/-- An endpoint slice with two endpoints. -/
def sliceX : EndpointSlice := ⟨[["10.1.2.3"], ["10.1.2.4"]]⟩

/-! ### Claims -/

/-- Claim C7: for every pod object passed to OnAdd, if `Status.PodIP` is
non-empty then afterwards the AddressIndex maps that address to this record
(overwriting any previous holder); if it is empty the AddressIndex is
unchanged; in both cases the NameIndex entry for the composite name is set
to this record and the live-workload counter is incremented by one. -/
theorem C7_onAdd_pod (k : K8SData) (p : Pod) (b : Bool)
    (h1 : -2 ^ 31 ≤ k.pods) (h2 : k.pods + 1 < 2 ^ 31) :
    (p.status.podIP ≠ "" →
       lookupByAddr (k.OnAdd (.pod p) b) p.status.podIP = some p) ∧
    (p.status.podIP = "" → (k.OnAdd (.pod p) b).ipToSrc = k.ipToSrc) ∧
    lookupByName (k.OnAdd (.pod p) b) p.name p.ns = some p ∧
    (k.OnAdd (.pod p) b).pods = k.pods + 1 := by
  unfold K8SData.OnAdd
  by_cases hip : p.status.podIP = ""
  · simp [hip, lookupByName, mapLoad_mapStore_self, int32Add_one k.pods h1 h2]
  · simp [hip, lookupByAddr, lookupByName, mapLoad_mapStore_self,
      int32Add_one k.pods h1 h2]

/-- Witness for C7: adding `podA` to the empty index. -/
theorem C7_onAdd_pod_witness :
    ((-2 ^ 31 : Int) ≤ K8SData.init.pods ∧ K8SData.init.pods + 1 < 2 ^ 31) ∧
    ((podA.status.podIP ≠ "" →
        lookupByAddr (K8SData.init.OnAdd (.pod podA) false) podA.status.podIP
          = some podA) ∧
     (podA.status.podIP = "" →
        (K8SData.init.OnAdd (.pod podA) false).ipToSrc = K8SData.init.ipToSrc) ∧
     lookupByName (K8SData.init.OnAdd (.pod podA) false) podA.name podA.ns
        = some podA ∧
     (K8SData.init.OnAdd (.pod podA) false).pods = K8SData.init.pods + 1) :=
  ⟨⟨by decide, by decide⟩,
   C7_onAdd_pod K8SData.init podA false (by decide) (by decide)⟩

/-- Claim C4: OnDelete of a pod decrements the live-workload counter by one,
removes the AddressIndex entry for the pod's last-known address when that
address is non-empty, leaves the AddressIndex unchanged when the address is
empty, and leaves the NameIndex entry untouched. -/
theorem C4_onDelete_pod (k : K8SData) (p : Pod)
    (h1 : -2 ^ 31 < k.pods) (h2 : k.pods < 2 ^ 31) :
    (k.OnDelete (.pod p)).pods = k.pods - 1 ∧
    (p.status.podIP ≠ "" →
       lookupByAddr (k.OnDelete (.pod p)) p.status.podIP = none) ∧
    (p.status.podIP = "" → (k.OnDelete (.pod p)).ipToSrc = k.ipToSrc) ∧
    (k.OnDelete (.pod p)).podInfo = k.podInfo := by
  unfold K8SData.OnDelete
  by_cases hip : p.status.podIP = ""
  · simp [hip, int32Add_neg_one k.pods h1 h2]
  · simp [hip, lookupByAddr, mapLoad_mapDelete_self, int32Add_neg_one k.pods h1 h2]

/-- Witness for C4: deleting `podA` from the index that contains it. -/
theorem C4_onDelete_pod_witness :
    ((-2 ^ 31 : Int) < (K8SData.init.OnAdd (.pod podA) false).pods ∧
       (K8SData.init.OnAdd (.pod podA) false).pods < 2 ^ 31) ∧
    (((K8SData.init.OnAdd (.pod podA) false).OnDelete (.pod podA)).pods
        = (K8SData.init.OnAdd (.pod podA) false).pods - 1 ∧
     (podA.status.podIP ≠ "" →
        lookupByAddr ((K8SData.init.OnAdd (.pod podA) false).OnDelete (.pod podA))
          podA.status.podIP = none) ∧
     (podA.status.podIP = "" →
        ((K8SData.init.OnAdd (.pod podA) false).OnDelete (.pod podA)).ipToSrc
          = (K8SData.init.OnAdd (.pod podA) false).ipToSrc) ∧
     ((K8SData.init.OnAdd (.pod podA) false).OnDelete (.pod podA)).podInfo
        = (K8SData.init.OnAdd (.pod podA) false).podInfo) :=
  ⟨⟨by decide, by decide⟩,
   C4_onDelete_pod (K8SData.init.OnAdd (.pod podA) false) podA (by decide) (by decide)⟩

/-- Counterexample to claim C5 as stated: adding the identical pod twice
doubles the live-workload counter, so the observable state (which, per the
claim, includes the counters) differs from a single OnAdd. -/
theorem C5_counterexample :
    (K8SData.init.OnAdd (.pod podA) false).OnAdd (.pod podA) false
      ≠ K8SData.init.OnAdd (.pod podA) false := by
  decide

/-- Claim C5 amended: OnAdd twice with the identical pod object yields the
same AddressIndex, NameIndex, synced flag and slice counters as calling it
once, but the live-workload counter is incremented a second time. -/
theorem C5_amended_onAdd (k : K8SData) (p : Pod) (b1 b2 : Bool) :
    ((k.OnAdd (.pod p) b1).OnAdd (.pod p) b2).ipToSrc
        = (k.OnAdd (.pod p) b1).ipToSrc ∧
    ((k.OnAdd (.pod p) b1).OnAdd (.pod p) b2).podInfo
        = (k.OnAdd (.pod p) b1).podInfo ∧
    ((k.OnAdd (.pod p) b1).OnAdd (.pod p) b2).synced
        = (k.OnAdd (.pod p) b1).synced ∧
    ((k.OnAdd (.pod p) b1).OnAdd (.pod p) b2).slices
        = (k.OnAdd (.pod p) b1).slices ∧
    ((k.OnAdd (.pod p) b1).OnAdd (.pod p) b2).sliceIPs
        = (k.OnAdd (.pod p) b1).sliceIPs ∧
    ((k.OnAdd (.pod p) b1).OnAdd (.pod p) b2).pods
        = int32Add (k.OnAdd (.pod p) b1).pods 1 := by
  unfold K8SData.OnAdd
  by_cases hip : p.status.podIP = ""
  · simp [hip, mapStore_idem]
  · simp [hip, mapStore_idem]

/-- Counterexample to claim C6 as stated: OnDelete has no case for an
address-slice object, so the slice counters stay at their incremented
values (the claim expects them decremented back to zero). -/
theorem C6_counterexample :
    ((K8SData.init.OnAdd (.slice sliceX) false).OnDelete (.slice sliceX)).slices = 1 ∧
    ((K8SData.init.OnAdd (.slice sliceX) false).OnDelete (.slice sliceX)).sliceIPs = 2 := by
  decide

/-- Claim C6 amended: OnAdd of an address-slice increments Slices by one and
SliceIPs by the member endpoint count (in 32-bit arithmetic); OnDelete of an
address-slice leaves the whole state unchanged — no decrement happens. -/
theorem C6_amended_slice_counters (k : K8SData) (s : EndpointSlice) (b : Bool) :
    (k.OnAdd (.slice s) b).slices = int32Add k.slices 1 ∧
    (k.OnAdd (.slice s) b).sliceIPs
        = int32Add k.sliceIPs (int32wrap s.endpoints.length) ∧
    k.OnDelete (.slice s) = k := by
  unfold K8SData.OnAdd K8SData.OnDelete
  simp

/-- Counterexample to claim C2 as stated: OnUpdate on a pod writes only the
AddressIndex, never the NameIndex, so after an update on the empty index the
NameIndex entry for the composite name is absent instead of holding the new
snapshot. -/
theorem C2_counterexample :
    K8SData.init.OnUpdate (.pod podA) (.pod podA2)
      = some { K8SData.init with ipToSrc := [("10.0.0.2", podA2)] } ∧
    lookupByName { K8SData.init with ipToSrc := [("10.0.0.2", podA2)] }
        "a" "default" = none := by
  decide

/-- Claim C2 amended: after OnUpdate whose new object is a pod, the
AddressIndex maps the new object's primary address (even when empty) to the
new object; the NameIndex is unchanged — OnUpdate never writes PodInfo. -/
theorem C2_amended_onUpdate (k : K8SData) (oldPod v : Pod) :
    ∃ r, k.OnUpdate (.pod oldPod) (.pod v) = some r ∧
      lookupByAddr r v.status.podIP = some v ∧
      r.podInfo = k.podInfo := by
  refine ⟨{ k with ipToSrc := mapStore k.ipToSrc v.status.podIP v }, rfl, ?_, rfl⟩
  simp [lookupByAddr, mapLoad_mapStore_self]

/-- Claim C9: OnUpdate whose new object is a pod with an empty PodIP stores
an AddressIndex entry keyed by the empty string pointing at that pod; the
non-empty-address guard that OnAdd and OnDelete apply is absent from
OnUpdate (both leave the AddressIndex unchanged for the same pod). -/
theorem C9_onUpdate_empty_addr (k : K8SData) (oldPod v : Pod) (b : Bool)
    (h : v.status.podIP = "") :
    (∃ r, k.OnUpdate (.pod oldPod) (.pod v) = some r ∧
       lookupByAddr r "" = some v) ∧
    (k.OnAdd (.pod v) b).ipToSrc = k.ipToSrc ∧
    (k.OnDelete (.pod v)).ipToSrc = k.ipToSrc := by
  refine ⟨⟨{ k with ipToSrc := mapStore k.ipToSrc v.status.podIP v }, rfl, ?_⟩, ?_, ?_⟩
  · simp [lookupByAddr, h, mapLoad_mapStore_self]
  · unfold K8SData.OnAdd
    simp [h]
  · unfold K8SData.OnDelete
    simp [h]

/-- Witness for C9: updating with `podE`, whose PodIP is empty. -/
theorem C9_onUpdate_empty_addr_witness :
    podE.status.podIP = "" ∧
    ((∃ r, K8SData.init.OnUpdate (.pod podA) (.pod podE) = some r ∧
        lookupByAddr r "" = some podE) ∧
     (K8SData.init.OnAdd (.pod podE) false).ipToSrc = K8SData.init.ipToSrc ∧
     (K8SData.init.OnDelete (.pod podE)).ipToSrc = K8SData.init.ipToSrc) :=
  ⟨by decide, C9_onUpdate_empty_addr K8SData.init podA podE false (by decide)⟩

/-- Claim C3 (code bug): the Go code performs the unchecked type assertion
`old.(*core_v1.Pod)` inside OnUpdate, so a call whose new object is a pod
but whose old object is, e.g., a node panics instead of being logged and
dropped; in the embedding the call evaluates to `none` (panic) at that
failing input. -/
theorem C3_onUpdate_mismatched_old :
    K8SData.init.OnUpdate (.node ⟨"n1", ["10.0.0.9"]⟩) (.pod podA) = none := by
  decide

/-- Claim C8: WaitForInit succeeds exactly when the readiness predicates of
both watched object kinds (the pod and node informers registered by
NewK8SWatcher) are satisfied before cancellation, in which case the synced
flag is set to true; otherwise it returns the failure value and leaves the
state — hence the synced flag — unchanged. -/
theorem C8_waitForInit (k : K8SData) (podSynced nodeSynced : Bool) :
    (k.WaitForInit podSynced nodeSynced).2
        = (if podSynced && nodeSynced then none else some "failed to sync") ∧
    (k.WaitForInit podSynced nodeSynced).1
        = (if podSynced && nodeSynced then { k with synced := true } else k) := by
  unfold K8SData.WaitForInit WaitForCacheSync
  cases podSynced <;> cases nodeSynced <;> simp

/-! ### Event sequences on a single composite name (claim C1) -/

/-- A well-formed lifecycle event delivered to the handlers: pod objects
only, with a pod old-object on updates (so OnUpdate does not panic). -/
inductive PodEvent where
  | add (p : Pod)
  | upd (oldPod p : Pod)
  | del (p : Pod)
  deriving DecidableEq, Repr

/-- Deliver one event to the handlers (`isInInitialList` is false in
steady state; it only affects logging). -/
def applyPodEvent (k : K8SData) : PodEvent → K8SData
  | .add p => k.OnAdd (.pod p) false
  | .upd o p => (k.OnUpdate (.pod o) (.pod p)).getD k
  | .del p => k.OnDelete (.pod p)

/-- Deliver a sequence of events in order. -/
def applyPodEvents (k : K8SData) (l : List PodEvent) : K8SData :=
  l.foldl applyPodEvent k

/-- The composite name key the event's (new) pod is indexed under. -/
def PodEvent.key : PodEvent → String
  | .add p => p.name ++ "." ++ p.ns
  | .upd _ p => p.name ++ "." ++ p.ns
  | .del p => p.name ++ "." ++ p.ns

/-- The pod installed by the last add of the sequence, seeded with the
prior NameIndex content. -/
def lastAdded (l : List PodEvent) (dflt : Option Pod) : Option Pod :=
  l.foldl (fun acc e => match e with | .add p => some p | _ => acc) dflt

theorem mapLoad_applyPodEvent (k : K8SData) (e : PodEvent) (key : String)
    (he : e.key = key) :
    mapLoad (applyPodEvent k e).podInfo key
      = match e with
        | .add p => some p
        | _ => mapLoad k.podInfo key := by
  cases e with
  | add p =>
      simp only [applyPodEvent, K8SData.OnAdd]
      rw [← he]
      by_cases hip : p.status.podIP = ""
      · simp [hip, PodEvent.key, mapLoad_mapStore_self]
      · simp [hip, PodEvent.key, mapLoad_mapStore_self]
  | upd o p => simp [applyPodEvent, K8SData.OnUpdate]
  | del p =>
      simp only [applyPodEvent, K8SData.OnDelete]
      by_cases hip : p.status.podIP = ""
      · simp [hip]
      · simp [hip]

/-- Counterexample to claim C1 as stated: after OnAdd(podA) then
OnUpdate(podA, podA2) on the same composite name, lookup-by-name still
returns the old snapshot podA — OnUpdate never writes the NameIndex; and
after OnAdd(podA) then OnDelete(podA), lookup-by-name still returns podA
instead of not-found — OnDelete never removes the NameIndex entry. -/
theorem C1_counterexample :
    (lookupByName (applyPodEvents K8SData.init [.add podA, .upd podA podA2])
        "a" "default" = some podA ∧ podA ≠ podA2) ∧
    lookupByName (applyPodEvents K8SData.init [.add podA, .del podA])
        "a" "default" = some podA := by
  decide

/-- Claim C1 amended: for every sequence of pod events all carrying the
same composite name, lookup of that name afterwards returns the snapshot
installed by the last OnAdd of the sequence (OnUpdate does not modify the
NameIndex and OnDelete does not remove the entry); when the sequence
contains no OnAdd, the prior NameIndex content — not-found on an initially
empty index — is returned. -/
theorem C1_amended_lastAdd (key : String) (l : List PodEvent) (k : K8SData)
    (hl : ∀ e ∈ l, e.key = key) :
    mapLoad (applyPodEvents k l).podInfo key
      = lastAdded l (mapLoad k.podInfo key) := by
  induction l generalizing k with
  | nil => simp [applyPodEvents, lastAdded]
  | cons e tl ih =>
      have he : e.key = key := hl e (List.mem_cons_self e tl)
      have htl : ∀ x ∈ tl, PodEvent.key x = key := fun x hx =>
        hl x (List.mem_cons_of_mem _ hx)
      have h1 : applyPodEvents k (e :: tl)
          = applyPodEvents (applyPodEvent k e) tl := rfl
      rw [h1, ih _ htl, mapLoad_applyPodEvent k e key he]
      cases e <;> simp [lastAdded]

/-- Witness for amended C1: add, update and delete on the key "a.default"
starting from the empty index; the result is the snapshot of the only
OnAdd. -/
theorem C1_amended_lastAdd_witness :
    mapLoad (applyPodEvents K8SData.init
        [.add podA, .upd podA podA2, .del podA2]).podInfo "a.default"
      = lastAdded [.add podA, .upd podA podA2, .del podA2]
          (mapLoad K8SData.init.podInfo "a.default") :=
  C1_amended_lastAdd "a.default" [.add podA, .upd podA podA2, .del podA2]
    K8SData.init (by decide)

/-! ### Atomic-step model of concurrent OnAdd calls (claim C10) -/

/-- One atomic step on the shared `K8SData` state: each `sync.Map` store
and each atomic counter add in the pod branch of `OnAdd` is a single atomic
operation, as guaranteed by `sync.Map` and `atomic.Int32`. -/
inductive AtomicOp where
  | storeName (key : String) (v : Pod)
  | incPods
  | storeIP (key : String) (v : Pod)
  deriving DecidableEq, Repr

/-- Execute one atomic step. -/
def applyOp (k : K8SData) : AtomicOp → K8SData
  | .storeName key v => { k with podInfo := mapStore k.podInfo key v }
  | .incPods => { k with pods := int32Add k.pods 1 }
  | .storeIP key v => { k with ipToSrc := mapStore k.ipToSrc key v }

/-- Execute a sequence of atomic steps. -/
def applyOps (k : K8SData) (l : List AtomicOp) : K8SData :=
  l.foldl applyOp k

/-- The atomic steps `OnAdd` performs for a pod object, in program order:
`PodInfo.Store`, `Pods.Add(1)`, then `IPToSrc.Store` if the address is
non-empty. -/
def onAddOps (p : Pod) : List AtomicOp :=
  [.storeName (p.name ++ "." ++ p.ns) p, .incPods] ++
    (if p.status.podIP ≠ "" then [.storeIP p.status.podIP p] else [])

/-- The decomposition is faithful: running the steps sequentially is
exactly `OnAdd` on a pod object. -/
theorem applyOps_onAddOps (k : K8SData) (p : Pod) (b : Bool) :
    applyOps k (onAddOps p) = k.OnAdd (.pod p) b := by
  unfold applyOps onAddOps K8SData.OnAdd
  by_cases hip : p.status.podIP = ""
  · simp [hip, applyOp]
  · simp [hip, applyOp]

/-- Interleavings of two threads' atomic-step sequences: each thread's
program order is preserved, steps from the two threads interleave
arbitrarily. -/
inductive Interleave :
    List AtomicOp → List AtomicOp → List AtomicOp → Prop where
  | nil : Interleave [] [] []
  | left {x xs ys zs} : Interleave xs ys zs → Interleave (x :: xs) ys (x :: zs)
  | right {y xs ys zs} : Interleave xs ys zs → Interleave xs (y :: ys) (y :: zs)

theorem interleave_nil_inv {l1 l2 : List AtomicOp}
    (h : Interleave l1 l2 []) : l1 = [] ∧ l2 = [] := by
  cases h
  exact ⟨rfl, rfl⟩

theorem getLast?_cons_of_some {α : Type} {xs : List α} (x : α) {z : α}
    (h : xs.getLast? = some z) : (x :: xs).getLast? = some z := by
  cases xs with
  | nil => simp at h
  | cons a l => rw [List.getLast?_cons_cons]; exact h

/-- The last step of an interleaving is the last step of one of the two
threads. -/
theorem interleave_getLast {l1 l2 zs : List AtomicOp}
    (h : Interleave l1 l2 zs) :
    zs = [] ∨ ∃ zs1 z, zs = zs1 ++ [z] ∧
      (l1.getLast? = some z ∨ l2.getLast? = some z) := by
  induction h with
  | nil => exact Or.inl rfl
  | @left x xs ys zs h ih =>
      right
      rcases ih with rfl | ⟨zs1, z, rfl, hz⟩
      · obtain ⟨rfl, rfl⟩ := interleave_nil_inv h
        exact ⟨[], x, rfl, Or.inl (by simp)⟩
      · refine ⟨x :: zs1, z, rfl, ?_⟩
        rcases hz with hz | hz
        · exact Or.inl (getLast?_cons_of_some x hz)
        · exact Or.inr hz
  | @right y xs ys zs h ih =>
      right
      rcases ih with rfl | ⟨zs1, z, rfl, hz⟩
      · obtain ⟨rfl, rfl⟩ := interleave_nil_inv h
        exact ⟨[], y, rfl, Or.inr (by simp)⟩
      · refine ⟨y :: zs1, z, rfl, ?_⟩
        rcases hz with hz | hz
        · exact Or.inl hz
        · exact Or.inr (getLast?_cons_of_some y hz)

/-- Claim C10: for any interleaving of the atomic steps of two concurrent
OnAdd calls with pods of distinct composite names and the same non-empty
address, the AddressIndex afterwards maps that address to exactly one of
the two records — never a corrupted or partial value. -/
theorem C10_concurrent_onAdd (k : K8SData) (p1 p2 : Pod) (a : String)
    (ha : a ≠ "") (hip1 : p1.status.podIP = a) (hip2 : p2.status.podIP = a)
    (hname : p1.name ++ "." ++ p1.ns ≠ p2.name ++ "." ++ p2.ns)
    (zs : List AtomicOp) (hz : Interleave (onAddOps p1) (onAddOps p2) zs) :
    lookupByAddr (applyOps k zs) a = some p1 ∨
    lookupByAddr (applyOps k zs) a = some p2 := by
  rcases interleave_getLast hz with rfl | ⟨zs1, z, rfl, hlast⟩
  · obtain ⟨h, _⟩ := interleave_nil_inv hz
    simp [onAddOps] at h
  · have e1 : (onAddOps p1).getLast? = some (.storeIP a p1) := by
      simp [onAddOps, hip1, ha]
    have e2 : (onAddOps p2).getLast? = some (.storeIP a p2) := by
      simp [onAddOps, hip2, ha]
    rcases hlast with hl | hl
    · rw [e1] at hl
      obtain rfl := (Option.some.injEq _ _ ▸ hl : AtomicOp.storeIP a p1 = z).symm
      exact Or.inl (by
        simp [applyOps, List.foldl_append, applyOp, lookupByAddr,
          mapLoad_mapStore_self])
    · rw [e2] at hl
      obtain rfl := (Option.some.injEq _ _ ▸ hl : AtomicOp.storeIP a p2 = z).symm
      exact Or.inr (by
        simp [applyOps, List.foldl_append, applyOp, lookupByAddr,
          mapLoad_mapStore_self])

/-- Any particular schedule: thread one runs to completion, then thread
two. -/
theorem interleave_append (l1 l2 : List AtomicOp) :
    Interleave l1 l2 (l1 ++ l2) := by
  induction l1 with
  | nil =>
      induction l2 with
      | nil => exact .nil
      | cons y ys ih => exact .right ih
  | cons x xs ih => exact .left ih

/-- Witness for C10: `podA` and `podB` share the address 10.0.0.1 under
different composite names; the sequential schedule is one interleaving. -/
theorem C10_concurrent_onAdd_witness :
    lookupByAddr (applyOps K8SData.init (onAddOps podA ++ onAddOps podB))
        "10.0.0.1" = some podA ∨
    lookupByAddr (applyOps K8SData.init (onAddOps podA ++ onAddOps podB))
        "10.0.0.1" = some podB :=
  C10_concurrent_onAdd K8SData.init podA podB "10.0.0.1" (by decide)
    (by decide) (by decide) (by decide) _ (interleave_append _ _)
